import Mathlib

/-!
Verification development for the India FoodCrop / Pulses dashboard
(source files INDIA1.py and app1.py).

The Python string pipeline on state names and year cells is embedded at the
level of code-point lists (`List ℕ`): a Python string is its list of Unicode
code points, `str.strip` is dropping whitespace code points at both ends,
`str.upper` maps lower-case ASCII letters to upper case, and the pandas
`Series.replace` with the fixed dictionary is an exact, case-sensitive lookup
in an association list.  Numeric cell values are embedded as `ℚ` (exact
rationals in place of IEEE floats), missing values (NaN) as `Option.none`,
and the fallible conversions of the loaders as `Option`-returning functions.
-/

namespace Dashboard

/-! ### Code-point model of the Python string primitives -/

/-- Whitespace code points removed by the Python `str.strip()`:
space, tab, newline, carriage return, vertical tab, form feed. -/
def isSpace (c : ℕ) : Bool :=
  c == 32 || c == 9 || c == 10 || c == 13 || c == 11 || c == 12

/-- One character of the Python `str.upper()` on the ASCII range: a lower-case
letter (code 97-122) is shifted down by 32, every other code point is kept. -/
def upChar (c : ℕ) : ℕ := if 97 ≤ c ∧ c ≤ 122 then c - 32 else c

/-- The Python `str.upper()` as used in `INDIA1.py` line 154 (`.str.upper()`). -/
def upper (s : List ℕ) : List ℕ := s.map upChar

/-- The Python `str.strip()` as used in `INDIA1.py` line 154 (`.str.strip()`):
drop whitespace from the front, then from the back. -/
def strip (s : List ℕ) : List ℕ := List.rdropWhile isSpace (s.dropWhile isSpace)

/-- Code-point list of a string literal, to write embedded string constants
the way the source writes them. -/
def codes (s : String) : List ℕ := s.data.map Char.toNat

/-- The fixed substitution table `STATE_NAME_CORRECTIONS` of `INDIA1.py`
lines 67-83, with the exact key and value spellings of the source. -/
def STATE_NAME_CORRECTIONS : List (List ℕ × List ℕ) := [
  (codes ("Orissa"), codes ("Odisha")),
  (codes ("Jammu & Kashmir"), codes ("Jammu and Kashmir")),
  (codes ("Chhattisgarh"), codes ("Chhattishgarh")),
  (codes ("Telangana"), codes ("Telengana")),
  (codes ("Tamil Nadu"), codes ("Tamilnadu")),
  (codes ("Kerela"), codes ("Kerala")),
  (codes ("Andaman & Nicobar Islands"), codes ("Andaman & Nicobar")),
  (codes ("Arunachal Pradesh"), codes ("Arunanchal Pradesh")),
  (codes ("Dadra & Nagar Haveli"), codes ("Dadara & Nagar Havelli")),
  (codes ("Delhi"), codes ("NCT of Delhi")),
  (codes ("Puducherry"), codes ("Puducherry")),
  (codes ("Lakshadweep"), codes ("Lakshadweep")),
  (codes ("Chandigarh"), codes ("Chandigarh")),
  (codes ("Daman & Diu"), codes ("Daman & Diu")),
  (codes ("Ladakh"), codes ("Ladakh"))]

/-- The pandas `Series.replace(STATE_NAME_CORRECTIONS)` on one value: an
exact, case-sensitive whole-string lookup that leaves the value unchanged
when no key matches. -/
def applyCorrections (s : List ℕ) : List ℕ :=
  match STATE_NAME_CORRECTIONS.find? (fun p => p.1 == s) with
  | some p => p.2
  | none => s

/-- The state-name normalizer of `INDIA1.py` lines 95, 107 and 154:
`.str.strip().replace(STATE_NAME_CORRECTIONS).str.upper()` applied to one
raw name.  It is a Lean function, hence pure, total and deterministic. -/
def normalize (s : List ℕ) : List ℕ := upper (applyCorrections (strip s))

/-! ### Helper lemmas on the string model -/

lemma upChar_idem (c : ℕ) : upChar (upChar c) = upChar c := by
  unfold upChar
  by_cases h : 97 ≤ c ∧ c ≤ 122
  · rw [if_pos h, if_neg (by omega : ¬(97 ≤ c - 32 ∧ c - 32 ≤ 122))]
  · rw [if_neg h, if_neg h]

lemma upper_idem (s : List ℕ) : upper (upper s) = upper s := by
  simp only [upper, List.map_map]
  congr 1
  funext c
  exact upChar_idem c

lemma isSpace_upChar (c : ℕ) : isSpace (upChar c) = isSpace c := by
  by_cases h : 97 ≤ c ∧ c ≤ 122
  · have h1 : isSpace (c - 32) = false := by simp [isSpace]; omega
    have h2 : isSpace c = false := by simp [isSpace]; omega
    simp [upChar, h, h1, h2]
  · simp [upChar, h]

lemma isSpace_comp_upChar : (isSpace ∘ upChar) = isSpace :=
  funext isSpace_upChar

lemma dropWhile_isSpace_upper (s : List ℕ) :
    (upper s).dropWhile isSpace = upper (s.dropWhile isSpace) := by
  simp only [upper, List.dropWhile_map, isSpace_comp_upChar]

lemma reverse_upper (s : List ℕ) : (upper s).reverse = upper s.reverse := by
  simp [upper]

lemma rdropWhile_isSpace_upper (s : List ℕ) :
    List.rdropWhile isSpace (upper s) = upper (List.rdropWhile isSpace s) := by
  unfold List.rdropWhile
  rw [reverse_upper, dropWhile_isSpace_upper, reverse_upper]

lemma strip_upper (s : List ℕ) : strip (upper s) = upper (strip s) := by
  unfold strip
  rw [dropWhile_isSpace_upper, rdropWhile_isSpace_upper]

lemma dropWhile_eq_self_of_head {α : Type} (p : α → Bool) (k : List α)
    (h : ∀ c, k.head? = some c → p c = false) : k.dropWhile p = k := by
  cases k with
  | nil => rfl
  | cons c t =>
    have hc := h c rfl
    simp [List.dropWhile_cons, hc]

lemma head?_rdropWhile_eq {α : Type} (p : α → Bool) (c : α) (t : List α) :
    List.rdropWhile p (c :: t) = [] ∨
      (List.rdropWhile p (c :: t)).head? = some c := by
  unfold List.rdropWhile
  rw [show (c :: t).reverse = t.reverse ++ [c] from by simp]
  rw [List.dropWhile_append]
  split
  · by_cases hc : p c
    · left
      simp [List.dropWhile_cons, hc]
    · right
      simp [List.dropWhile_cons, hc]
  · right
    simp

lemma dropWhile_rdropWhile {α : Type} (p : α → Bool) (m : List α)
    (h : m.dropWhile p = m) :
    (List.rdropWhile p m).dropWhile p = List.rdropWhile p m := by
  cases m with
  | nil => simp [List.rdropWhile]
  | cons c t =>
    have hc : p c = false := by
      by_contra hc
      have hct : p c = true := by
        cases hpc : p c
        · exact absurd hpc hc
        · rfl
      rw [List.dropWhile_cons, if_pos hct] at h
      have hlen : (t.dropWhile p).length ≤ t.length :=
        (List.dropWhile_sublist p).length_le
      have : (t.dropWhile p).length = t.length + 1 := by rw [h]; rfl
      omega
    rcases head?_rdropWhile_eq p c t with he | hh
    · rw [he]
      rfl
    · refine dropWhile_eq_self_of_head p _ ?_
      intro d hd
      rw [hh] at hd
      cases hd
      exact hc

lemma strip_strip (s : List ℕ) : strip (strip s) = strip s := by
  unfold strip
  rw [dropWhile_rdropWhile isSpace (s.dropWhile isSpace)
        (List.dropWhile_idempotent isSpace s)]
  exact List.rdropWhile_idempotent isSpace (s.dropWhile isSpace)

lemma corrections_keys_not_upper :
    ∀ pr ∈ STATE_NAME_CORRECTIONS, upper pr.1 ≠ pr.1 := by decide

lemma corrections_values_normalized :
    ∀ pr ∈ STATE_NAME_CORRECTIONS,
      upper (applyCorrections (strip (upper pr.2))) = upper pr.2 := by decide

lemma applyCorrections_upper (s : List ℕ) :
    applyCorrections (upper s) = upper s := by
  unfold applyCorrections
  cases hf : STATE_NAME_CORRECTIONS.find? (fun p => p.1 == upper s) with
  | none => rfl
  | some pr =>
    exfalso
    have hmem := List.mem_of_find?_eq_some hf
    have hbeq := List.find?_some hf
    have heq : pr.1 = upper s := by simpa using hbeq
    apply corrections_keys_not_upper pr hmem
    rw [heq, upper_idem]

lemma normalize_idem (x : List ℕ) : normalize (normalize x) = normalize x := by
  unfold normalize
  cases hf : STATE_NAME_CORRECTIONS.find? (fun p => p.1 == strip x) with
  | none =>
    have h1 : applyCorrections (strip x) = strip x := by
      simp [applyCorrections, hf]
    rw [h1, strip_upper, strip_strip, applyCorrections_upper, upper_idem]
  | some pr =>
    have h1 : applyCorrections (strip x) = pr.2 := by
      simp [applyCorrections, hf]
    have hmem := List.mem_of_find?_eq_some hf
    rw [h1]
    exact corrections_values_normalized pr hmem

/-! ### Claim theorems on the name normalizer -/

/-- Claim C3: the name normalizer first trims leading and trailing
whitespace, then looks the trimmed (not yet uppercased) string up in the
fixed substitution table by exact, case-sensitive match, leaves it unchanged
when no key matches, and finally upper-cases the result; as a Lean function
it is pure, total and deterministic.  The two concrete conjuncts show the
lookup happening on the pre-uppercase trimmed input: the mixed-case table
key is rewritten while its upper-cased variant passes through unchanged. -/
theorem c3_normalizer_trim_lookup_upper (x : List ℕ) :
    ((∃ pr, pr ∈ STATE_NAME_CORRECTIONS ∧ pr.1 = strip x ∧
        normalize x = upper pr.2) ∨
      ((∀ pr ∈ STATE_NAME_CORRECTIONS, pr.1 ≠ strip x) ∧
        normalize x = upper (strip x))) ∧
    normalize (codes ("Orissa")) = codes ("ODISHA") ∧
    normalize (codes ("ORISSA")) = codes ("ORISSA") := by
  refine ⟨?_, by decide, by decide⟩
  unfold normalize applyCorrections
  cases hf : STATE_NAME_CORRECTIONS.find? (fun p => p.1 == strip x) with
  | none =>
    right
    refine ⟨?_, rfl⟩
    intro pr hpr
    have := List.find?_eq_none.mp hf pr hpr
    simpa using this
  | some pr =>
    left
    exact ⟨pr, List.mem_of_find?_eq_some hf,
      by simpa using List.find?_some hf, rfl⟩

/-- Claim C4 counterexample: the inputs "Orissa" and "ORISSA" differ only in
letter case (their upper-casings agree), yet the normalizer maps them to
different outputs, because the substitution table lookup is case-sensitive
and happens before upper-casing.  So the normalizer is not case-insensitive
on its input. -/
theorem c4_counterexample_case_sensitive :
    upper (codes ("Orissa")) = upper (codes ("ORISSA")) ∧
    normalize (codes ("Orissa")) ≠ normalize (codes ("ORISSA")) := by
  constructor <;> decide

/-- Claim C4 (amended): the normalizer always produces entirely upper-case
output (upper-casing the output changes nothing), but it is not
case-insensitive on its input: two raw names differing only in letter case
can normalize to different canonical names when exactly one of them matches
the case-sensitive substitution table. -/
theorem c4_output_uppercase (x : List ℕ) : upper (normalize x) = normalize x := by
  unfold normalize
  exact upper_idem _

/-- Claim C5: the name normalizer is idempotent, and the concrete input
"  Orissa " (with edge whitespace) normalizes to the canonical spelling
"ODISHA" used for that state everywhere else in the system. -/
theorem c5_normalize_idempotent :
    normalize (codes ("  Orissa ")) = codes ("ODISHA") ∧
    ∀ x : List ℕ, normalize (normalize x) = normalize x :=
  ⟨by decide, normalize_idem⟩

/-! ### Year-cell parsing (INDIA1.py lines 146-151, decade filter 165-188) -/

/-- Decimal digit code points, the strings accepted by the Python `int()`
conversion used by `astype(int)` (sign and surrounding whitespace are not
exercised by the year data and are not modelled). -/
def isDigit (c : ℕ) : Bool := decide (48 ≤ c ∧ c ≤ 57)

/-- Value of a decimal digit string. -/
def digitsToNat (ds : List ℕ) : ℕ := ds.foldl (fun acc c => 10 * acc + (c - 48)) 0

/-- The Python `int()` on a string: the number when the string is a nonempty
run of digits, and a raised `ValueError` (modelled as `none`) otherwise. -/
def parseIntStr (s : List ℕ) : Option ℕ :=
  if s ≠ [] ∧ s.all isDigit then some (digitsToNat s) else none

/-- First field of the Python `.str.split(chr(45)).str[0]` of INDIA1.py
line 149: the prefix of the string before the first dash (code point 45),
or the whole string when it has no dash. -/
def firstDashField (s : List ℕ) : List ℕ := s.takeWhile (fun c => c != 45)

/-- The year-extraction step of INDIA1.py line 149:
`astype(str).str.split(chr(45)).str[0].astype(int)` on one year cell. -/
def extractYear (s : List ℕ) : Option ℕ := parseIntStr (firstDashField s)

/-- Second field of the decade-range split of INDIA1.py line 181. -/
def secondDashField (s : List ℕ) : List ℕ :=
  ((s.dropWhile (fun c => c != 45)).drop 1).takeWhile (fun c => c != 45)

/-- The `map(int, selected_decade_range.split(chr(45)))` unpacking of
INDIA1.py line 181 applied to a decade-range string. -/
def parseDecadePair (s : List ℕ) : Option (ℕ × ℕ) :=
  match parseIntStr (firstDashField s), parseIntStr (secondDashField s) with
  | some a, some b => some (a, b)
  | _, _ => none

/-- One data row as the decade filter of INDIA1.py sees it: a state name,
the parsed integer year, and the numeric metric value. -/
structure PulseRow where
  state : List ℕ
  year : ℕ
  value : ℚ
deriving DecidableEq

/-- The decade filter of INDIA1.py lines 182-185:
`(Year >= start_year_decade) & (Year <= end_year_decade)`. -/
def decadeFilter (rows : List PulseRow) (startYear endYear : ℕ) : List PulseRow :=
  rows.filter (fun r => decide (startYear ≤ r.year) && decide (r.year ≤ endYear))

/-- The while loop of INDIA1.py lines 167-174 generating decade ranges,
with the loop counter turned into structural fuel (the loop adds 10 to
`current_decade_start` each pass, so `maxY + 1` passes are never reached). -/
def decadeOptionsAux : ℕ → ℕ → ℕ → List (ℕ × ℕ)
  | 0, _, _ => []
  | fuel + 1, cur, maxY =>
    if cur ≤ maxY then (cur, min (cur + 9) maxY) :: decadeOptionsAux fuel (cur + 10) maxY
    else []

/-- Decade options generated from the data range, INDIA1.py lines 165-174:
start at `(min_year // 10) * 10`, emit `(start, min (start + 9) max_year)`
while the start does not exceed `max_year`. -/
def decadeOptions (minYear maxYear : ℕ) : List (ℕ × ℕ) :=
  decadeOptionsAux (maxYear + 1) (minYear / 10 * 10) maxYear

/-- Claim C6: on a year-range string of the form `YYYY-YY` (a nonempty
digit prefix, a dash, anything after), the year-extraction step returns the
integer value of the leading digit field; concretely "2001-02" gives 2001
and "2005-06" gives 2005. -/
theorem c6_year_extraction_leading_field (a b : List ℕ)
    (ha : a ≠ []) (hd : ∀ c ∈ a, isDigit c = true) :
    extractYear (a ++ 45 :: b) = some (digitsToNat a) ∧
    extractYear (codes ("2001-02")) = some 2001 ∧
    extractYear (codes ("2005-06")) = some 2005 := by
  refine ⟨?_, by decide, by decide⟩
  unfold extractYear firstDashField
  have hpos : ∀ c ∈ a, (c != 45) = true := by
    intro c hc
    have := hd c hc
    simp only [isDigit, decide_eq_true_eq] at this
    simp only [bne_iff_ne, ne_eq]
    omega
  rw [List.takeWhile_append_of_pos hpos]
  have h45 : (45 :: b).takeWhile (fun c => c != 45) = [] := by
    simp [List.takeWhile_cons]
  rw [h45, List.append_nil]
  unfold parseIntStr
  rw [if_pos ⟨ha, List.all_eq_true.mpr hd⟩]

/-- Claim C6 witness: the general statement applied to the concrete
year-range string "2001-02" split as "2001" and "02". -/
theorem c6_year_extraction_leading_field_witness :
    codes ("2001") ≠ [] ∧ (∀ c ∈ codes ("2001"), isDigit c = true) ∧
    extractYear (codes ("2001") ++ 45 :: codes ("02")) =
      some (digitsToNat (codes ("2001"))) :=
  ⟨by decide, by decide,
    (c6_year_extraction_leading_field (codes ("2001")) (codes ("02"))
      (by decide) (by decide)).1⟩

/-- Claim C8: selecting the decade "2000-2009" on a table whose rows carry
years 2000 through 2009 keeps exactly the rows whose year lies between 2000
and 2009 inclusive.  The first conjunct shows the option generator offers
exactly the range pair (2000, 2009) for data spanning those years, the
second that the selected option string parses back to that pair, and the
third characterizes the membership of the filtered row set. -/
theorem c8_decade_filter_exact :
    decadeOptions 2000 2009 = [(2000, 2009)] ∧
    parseDecadePair (codes ("2000-2009")) = some (2000, 2009) ∧
    ∀ (rows : List PulseRow) (r : PulseRow),
      r ∈ decadeFilter rows 2000 2009 ↔
        r ∈ rows ∧ 2000 ≤ r.year ∧ r.year ≤ 2009 := by
  refine ⟨by decide, by decide, ?_⟩
  intro rows r
  unfold decadeFilter
  rw [List.mem_filter]
  simp

/-! ### Proportional disaggregation (INDIA1.py lines 348-353 and 586-597)

The call `np.random.dirichlet(np.ones(n_districts))` is embedded by
universally quantifying over its output: any vector of `n` non-negative
proportions summing to one.  The multiplication `proportions *
state_total_value` is the map below, over exact rationals. -/

/-- The contract of `np.random.dirichlet(np.ones(n))`: a draw is some list
of `n` non-negative proportions summing to one. -/
def IsDirichletDraw (n : ℕ) (proportions : List ℚ) : Prop :=
  proportions.length = n ∧ (∀ p ∈ proportions, 0 ≤ p) ∧ proportions.sum = 1

/-- The disaggregation step `dummy_values = proportions * state_total_value`
of INDIA1.py lines 350-351 (and 588-589). -/
def dirichletDisaggregate (proportions : List ℚ) (total : ℚ) : List ℚ :=
  proportions.map (fun p => p * total)

lemma sum_map_mul_right_q (l : List ℚ) (t : ℚ) :
    (l.map (fun p => p * t)).sum = l.sum * t := by
  induction l with
  | nil => simp
  | cons p r ih => simp [ih, add_mul]

/-- Claim C1: for every parent total `T ≥ 0`, child count `n ≥ 1` and every
Dirichlet draw of proportions, the disaggregation step produces exactly `n`
non-negative child values summing to `T` (exactly, in the rational model of
the floating-point computation). -/
theorem c1_disaggregation_partition (T : ℚ) (n : ℕ) (ps : List ℚ)
    (hT : 0 ≤ T) (hn : 1 ≤ n) (hdraw : IsDirichletDraw n ps) :
    (dirichletDisaggregate ps T).length = n ∧
    (∀ v ∈ dirichletDisaggregate ps T, 0 ≤ v) ∧
    (dirichletDisaggregate ps T).sum = T := by
  obtain ⟨hlen, hpos, hsum⟩ := hdraw
  refine ⟨by simpa [dirichletDisaggregate] using hlen, ?_, ?_⟩
  · intro v hv
    simp only [dirichletDisaggregate, List.mem_map] at hv
    obtain ⟨p, hp, rfl⟩ := hv
    exact mul_nonneg (hpos p hp) hT
  · rw [dirichletDisaggregate, sum_map_mul_right_q, hsum, one_mul]

/-- Claim C1 witness: the theorem applied to the parent total 100 split
over two children with the concrete draw [0, 1]. -/
theorem c1_disaggregation_partition_witness :
    (0 ≤ (100 : ℚ) ∧ 1 ≤ 2 ∧ IsDirichletDraw 2 [0, 1]) ∧
    ((dirichletDisaggregate [0, 1] 100).length = 2 ∧
      (∀ v ∈ dirichletDisaggregate [(0 : ℚ), 1] 100, 0 ≤ v) ∧
      (dirichletDisaggregate [0, 1] 100).sum = 100) := by
  have hd : IsDirichletDraw 2 [(0 : ℚ), 1] := ⟨by decide, by decide, by simp⟩
  exact ⟨⟨by decide, by decide, hd⟩,
    c1_disaggregation_partition 100 2 [0, 1] (by decide) (by decide) hd⟩

/-! ### Missing parent totals (INDIA1.py lines 338-342 and 569-597) -/

/-- The per-state district fabrication of the full-India map, INDIA1.py
lines 569 and 586-597: `Dummy_Value` is initialized to NaN (`none`) for
every district, and the products `proportions * state_total_value` are
assigned only under the `pd.notna(state_total_value)` guard, so a missing
(`none`) state total leaves every district value `none`. -/
def fabricateDistrictValues (stateTotal : Option ℚ) (proportions : List ℚ) :
    List (Option ℚ) :=
  match stateTotal with
  | some t => proportions.map (fun p => some (p * t))
  | none => proportions.map (fun _ => none)

/-- The per-year state total of the state district map, INDIA1.py lines
338-342: the metric value of the row for the given year, with the `else`
branch defaulting to 0 when no row for that year exists. -/
def stateTotalForYear (yearRows : List (ℕ × ℚ)) (y : ℕ) : ℚ :=
  match yearRows.find? (fun r => r.1 == y) with
  | some r => r.2
  | none => 0

/-- Claim C2: a missing parent total fabricates `n` missing child values,
never zeros: the values are all `none` and none of them is `some 0`.  The
last conjunct covers the only zero-defaulting branch in the source
(INDIA1.py line 342): the state-map loop iterates exactly over the years
present in the state data (line 334), and for such a year the row lookup
always succeeds, so the `state_total_value = 0` default is unreachable and
no executed path substitutes 0 for a missing parent total. -/
theorem c2_missing_parent_missing_children (ps : List ℚ) (n : ℕ)
    (hlen : ps.length = n) (hn : 1 ≤ n) :
    (fabricateDistrictValues none ps).length = n ∧
    (∀ v ∈ fabricateDistrictValues none ps, v = none) ∧
    (∀ v ∈ fabricateDistrictValues none ps, v ≠ some 0) ∧
    (∀ (yearRows : List (ℕ × ℚ)) (y : ℕ), y ∈ yearRows.map Prod.fst →
      (yearRows.find? (fun r => r.1 == y)).isSome = true) := by
  refine ⟨by simpa [fabricateDistrictValues] using hlen, ?_, ?_, ?_⟩
  · intro v hv
    simp only [fabricateDistrictValues, List.mem_map] at hv
    obtain ⟨p, hp, rfl⟩ := hv
    rfl
  · intro v hv
    simp only [fabricateDistrictValues, List.mem_map] at hv
    obtain ⟨p, hp, rfl⟩ := hv
    exact Option.noConfusion
  · intro yearRows y hy
    rw [List.mem_map] at hy
    obtain ⟨r, hr, hry⟩ := hy
    rw [List.find?_isSome]
    exact ⟨r, hr, by simp [hry]⟩

/-- Claim C2 witness: the theorem applied to two districts with a missing
parent total. -/
theorem c2_missing_parent_missing_children_witness :
    ([(0 : ℚ), 1].length = 2 ∧ 1 ≤ 2) ∧
    ((fabricateDistrictValues none [(0 : ℚ), 1]).length = 2 ∧
      (∀ v ∈ fabricateDistrictValues none [(0 : ℚ), 1], v = none) ∧
      (∀ v ∈ fabricateDistrictValues none [(0 : ℚ), 1], v ≠ some 0) ∧
      (∀ (yearRows : List (ℕ × ℚ)) (y : ℕ), y ∈ yearRows.map Prod.fst →
        (yearRows.find? (fun r => r.1 == y)).isSome = true)) :=
  ⟨⟨by decide, by decide⟩,
    c2_missing_parent_missing_children [(0 : ℚ), 1] 2 (by decide) (by decide)⟩

/-! ### Loader error handling (app1.py lines 111-117, INDIA1.py lines 146-151)

A raw spreadsheet cell is either blank (NaN), already numeric, or a string.
`pd.to_numeric(..., errors="coerce")` maps it to `Option ℚ`.  The pandas
column-wise conversions are row-independent, so the loaders are embedded as
row-wise recursions with the same observable result. -/

/-- A raw cell value before numeric conversion. -/
inductive RawCell where
  | blank : RawCell
  | num : ℚ → RawCell
  | str : List ℕ → RawCell
deriving DecidableEq

/-- `pd.to_numeric(cell, errors="coerce")`: blank stays missing, numbers
pass through, and a string becomes a number exactly when it parses (the
integer-string fragment suffices for the data exercised here). -/
def toNumericCoerce : RawCell → Option ℚ
  | RawCell.blank => none
  | RawCell.num q => some q
  | RawCell.str s =>
    match parseIntStr s with
    | some k => some ((k : ℕ) : ℚ)
    | none => none

/-- A raw row of the app1.py loader after the column renames: the state
cell and the four numeric columns Year, Area, Production, Yield. -/
structure App1Row where
  state : RawCell
  year : RawCell
  area : RawCell
  production : RawCell
  yieldVal : RawCell

/-- A fully parsed app1.py row, as it survives the
`dropna(subset=[State, Year, Area, Production, Yield])`. -/
structure App1Clean where
  state : RawCell
  year : ℚ
  area : ℚ
  production : ℚ
  yieldVal : ℚ
deriving DecidableEq

/-- One row of app1.py `load_data` lines 111-117: coerce Year, Area,
Production and Yield to numeric, then drop the row when any of them (or the
state cell) is missing. -/
def parseApp1Row (r : App1Row) : Option App1Clean :=
  match toNumericCoerce r.year, toNumericCoerce r.area,
      toNumericCoerce r.production, toNumericCoerce r.yieldVal with
  | some y, some a, some p, some yl =>
    if r.state = RawCell.blank then none
    else some ⟨r.state, y, a, p, yl⟩
  | _, _, _, _ => none

/-- The app1.py `load_data` row pipeline: coercion plus `dropna` keeps
exactly the rows whose cells all convert. -/
def app1LoadRows (rows : List App1Row) : List App1Clean :=
  rows.filterMap parseApp1Row

/-- A raw row of the INDIA1.py pulses sheet as lines 146-151 see it: the
Year cell (already `none` when NaN, otherwise its string form) and the
selected metric cell. -/
structure India1Row where
  year : Option (List ℕ)
  metric : RawCell

/-- The INDIA1.py lines 146-151 pipeline on the rows of one sheet:
`dropna(subset=[Year])` drops rows with a missing year;
`astype(str).str.split.str[0].astype(int)` raises (whole load fails, giving
`none`) on any remaining year whose leading dash-field is not an integer;
`pd.to_numeric(metric, errors="coerce")` plus `dropna(subset=[metric])`
drops only the row whose metric fails to convert. -/
def india1ProcessRows : List India1Row → Option (List (ℕ × ℚ))
  | [] => some []
  | r :: rs =>
    match r.year with
    | none => india1ProcessRows rs
    | some s =>
      match extractYear s with
      | none => none
      | some y =>
        match india1ProcessRows rs with
        | none => none
        | some tail =>
          match toNumericCoerce r.metric with
          | none => some tail
          | some m => some ((y, m) :: tail)

/-- Claim C7 counterexample: in the INDIA1.py loader a year cell that fails
numeric conversion is not silently dropped with the remaining rows
unaffected.  With the middle row carrying the unparseable year "Total", the
whole load fails (the raised error is caught at lines 272-274 and the table
becomes empty), although the same table without that row loads two rows. -/
theorem c7_counterexample_year_aborts_load :
    india1ProcessRows
        [⟨some (codes ("2000-01")), RawCell.num 10⟩,
          ⟨some (codes ("Total")), RawCell.num 5⟩,
          ⟨some (codes ("2001-02")), RawCell.num 20⟩] = none ∧
    india1ProcessRows
        [⟨some (codes ("2000-01")), RawCell.num 10⟩,
          ⟨some (codes ("2001-02")), RawCell.num 20⟩] =
      some [(2000, 10), (2001, 20)] := by
  constructor <;> decide

/-- Claim C7 (amended): in the app1.py loader a row whose year or metric
cell fails numeric conversion is silently dropped and the remaining rows
are processed unaffected, and likewise in the INDIA1.py loader for a failed
metric cell; but an INDIA1.py year cell that is present and unparseable
makes the whole table load fail (caught by the top-level handler and
reported, with the table treated as empty), so there the remaining rows are
not processed. -/
theorem c7_amended_row_drop
    (pre post : List App1Row) (bad : App1Row)
    (hbad : parseApp1Row bad = none)
    (ipre ipost : List India1Row) (ibad : India1Row)
    (ys : List ℕ) (y : ℕ)
    (hy : ibad.year = some ys) (hyext : extractYear ys = some y)
    (hmet : toNumericCoerce ibad.metric = none) :
    app1LoadRows (pre ++ bad :: post) = app1LoadRows pre ++ app1LoadRows post ∧
    india1ProcessRows (ipre ++ ibad :: ipost) = india1ProcessRows (ipre ++ ipost) := by
  constructor
  · simp [app1LoadRows, List.filterMap_append, List.filterMap_cons, hbad]
  · induction ipre with
    | nil =>
      simp only [List.nil_append]
      rw [india1ProcessRows, hy]
      simp only [hyext, hmet]
      cases india1ProcessRows ipost <;> rfl
    | cons r rs ih =>
      simp only [List.cons_append]
      rw [india1ProcessRows, india1ProcessRows]
      cases hr : r.year with
      | none => exact ih
      | some s =>
        cases hext : extractYear s with
        | none => simp only [hext]
        | some y2 =>
          simp only [hext]
          rw [ih]

/-- Claim C7 witness: the amended theorem applied to a concrete app1.py row
with an unparseable year cell sitting between clean rows, and a concrete
INDIA1.py row with a parseable year and an unparseable metric cell. -/
theorem c7_amended_row_drop_witness :
    parseApp1Row (App1Row.mk (RawCell.num 1) (RawCell.str (codes ("abc")))
        (RawCell.num 1) (RawCell.num 1) (RawCell.num 1)) = none ∧
    (India1Row.mk (some (codes ("2000-01"))) (RawCell.str (codes ("xx")))).year =
      some (codes ("2000-01")) ∧
    extractYear (codes ("2000-01")) = some 2000 ∧
    toNumericCoerce (RawCell.str (codes ("xx"))) = none ∧
    (app1LoadRows ([] ++ App1Row.mk (RawCell.num 1) (RawCell.str (codes ("abc")))
          (RawCell.num 1) (RawCell.num 1) (RawCell.num 1) ::
          [App1Row.mk (RawCell.num 1) (RawCell.num 2000) (RawCell.num 3)
            (RawCell.num 4) (RawCell.num 5)]) =
        app1LoadRows [] ++ app1LoadRows
          [App1Row.mk (RawCell.num 1) (RawCell.num 2000) (RawCell.num 3)
            (RawCell.num 4) (RawCell.num 5)] ∧
      india1ProcessRows ([] ++ India1Row.mk (some (codes ("2000-01")))
          (RawCell.str (codes ("xx"))) :: []) =
        india1ProcessRows ([] ++ [])) :=
  ⟨by decide, rfl, by decide, by decide,
    c7_amended_row_drop [] _ _ (by decide) [] [] _ _ 2000 rfl (by decide) (by decide)⟩

/-! ### The shared global random stream (INDIA1.py lines 350, 588, 702-704)

Both `np.random.dirichlet` (the disaggregation draws at lines 350 and 588)
and the `np.random.seed(42)` / `np.random.uniform` pair of the simulated
district trend (lines 703-704) operate on the single process-global numpy
random state.  The state is embedded as the pair of the last seed planted
in it and the number of draws taken since; `np.random.seed(s)` replaces the
state, every draw advances it deterministically.  On each Streamlit rerun
the script runs top to bottom: all disaggregation draws happen first, then
the trend feature seeds the global state with 42 and draws once. -/

/-- The global numpy random state: the last planted seed and the number of
draw calls consumed since it was planted.  The value produced by a draw is
a fixed function of this state, so two draws from equal states coincide. -/
structure RngState where
  seed : ℕ
  counter : ℕ
deriving DecidableEq

/-- `np.random.seed(s)` (INDIA1.py line 703): replaces the global state. -/
def seedRng (s : ℕ) : RngState → RngState := fun _ => RngState.mk s 0

/-- `n` successive draw calls (`np.random.dirichlet` at lines 350 and 588,
`np.random.uniform` at line 704): each advances the global state. -/
def drawsRng (n : ℕ) (st : RngState) : RngState :=
  RngState.mk st.seed (st.counter + n)

/-- One top-to-bottom script run with the district-trend feature active:
`nDisagg` dirichlet draws for the maps, then `np.random.seed(42)`, then the
trend draw.  The returned state is what the next rerun starts from. -/
def scriptRunWithTrend (nDisagg nTrend : ℕ) (st : RngState) : RngState :=
  drawsRng nTrend (seedRng 42 (drawsRng nDisagg st))

/-- One top-to-bottom script run with no district selected, so the trend
feature never seeds or draws. -/
def scriptRunNoTrend (nDisagg : ℕ) (st : RngState) : RngState :=
  drawsRng nDisagg st

/-- Claim C9 counterexample: the trend feature and the disaggregation are
not independently configured random streams.  Starting from the same
global state, running the script with the trend feature (which plants seed
42) leaves a different global state for the next rerun of the
disaggregation than running without it, so seeding the trend stream does
affect subsequent disaggregation draws; and the state the next
disaggregation reads after a trend-seeded run is identical for two
different prior states, so those draws are not fresh randomness. -/
theorem c9_counterexample_shared_rng :
    scriptRunWithTrend 30 1 (RngState.mk 12345 0) ≠
      scriptRunNoTrend 30 (RngState.mk 12345 0) ∧
    scriptRunWithTrend 30 1 (RngState.mk 12345 0) =
      scriptRunWithTrend 30 1 (RngState.mk 99999 0) := by
  constructor <;> decide

/-- Claim C9 (amended): the simulated district trend plants the fixed seed
42 into the shared global numpy random state immediately before its draw,
so the state the trend draws from is always `(42, 0)` and the same district
yields the same trend values across refreshes; but because the stream is
shared rather than independent, a run that rendered the trend leaves the
global state fully determined by that fixed seed and the number of trend
draws, regardless of everything drawn before, so the next rerun of the
disaggregation draws from a seed-42-determined state, not fresh
randomness. -/
theorem c9_amended_shared_stream (nDisagg nTrend : ℕ) (st : RngState) :
    seedRng 42 (drawsRng nDisagg st) = RngState.mk 42 0 ∧
    scriptRunWithTrend nDisagg nTrend st = RngState.mk 42 nTrend := by
  constructor
  · rfl
  · simp [scriptRunWithTrend, seedRng, drawsRng]

/-! ### The year slider of app1.py (lines 188-198 and 214-227) -/

/-- `min_year` of app1.py line 189: the minimum year of the filtered data,
with the source default 1950 for an empty table. -/
def minYearOf (years : List ℤ) : ℤ :=
  match years with
  | [] => 1950
  | y :: ys => ys.foldl min y

/-- `max_year` of app1.py line 190: the maximum year of the filtered data,
with the source default 2020 for an empty table. -/
def maxYearOf (years : List ℤ) : ℤ :=
  match years with
  | [] => 2020
  | y :: ys => ys.foldl max y

/-- The year slider of app1.py lines 215-222 accepts every integer between
`min_year` and `max_year` with step 1. -/
def sliderAccepts (years : List ℤ) (v : ℤ) : Prop :=
  minYearOf years ≤ v ∧ v ≤ maxYearOf years

/-- `years.index(year_slider_value)` of app1.py line 226: the position of
the value in the years list, or a raised `ValueError` (`none`). -/
def yearIndexLookup (years : List ℤ) (v : ℤ) : Option ℕ :=
  years.findIdx? (fun y => y == v)

/-- The slider handling of app1.py lines 214 and 225-226: when the slider
value equals the current year the index is kept, otherwise
`years.index(...)` is called on it. -/
def handleYearSlider (years : List ℤ) (curIdx : ℕ) (v : ℤ) : Option ℕ :=
  if years.get? curIdx = some v then some curIdx else yearIndexLookup years v

/-- Claim C10: the slider accepts every integer in the inclusive range of
the data years, but the index lookup is defined only for years actually
present: for any gap year inside the range the lookup raises (returns
`none`), so the slider-to-index operation is partial at the interface. -/
theorem c10_slider_gap_year_partial (years : List ℤ) (curIdx : ℕ) (g : ℤ)
    (hlo : minYearOf years ≤ g) (hhi : g ≤ maxYearOf years)
    (hgap : g ∉ years) :
    sliderAccepts years g ∧ handleYearSlider years curIdx g = none := by
  refine ⟨⟨hlo, hhi⟩, ?_⟩
  unfold handleYearSlider yearIndexLookup
  have hget : ¬years.get? curIdx = some g := by
    intro h
    exact hgap (List.get?_mem h)
  rw [if_neg hget, List.findIdx?_eq_none_iff]
  intro x hx
  have hne : x ≠ g := by
    intro he
    exact hgap (he ▸ hx)
  simp [hne]

/-- Claim C10 witness: the theorem applied to the concrete years list
[2000, 2002] with the gap year 2001, which the slider accepts but the
index lookup fails on. -/
theorem c10_slider_gap_year_partial_witness :
    (minYearOf [2000, 2002] ≤ 2001 ∧ (2001 : ℤ) ≤ maxYearOf [2000, 2002] ∧
      (2001 : ℤ) ∉ [(2000 : ℤ), 2002]) ∧
    (sliderAccepts [2000, 2002] 2001 ∧
      handleYearSlider [2000, 2002] 0 2001 = none) :=
  ⟨⟨by decide, by decide, by decide⟩,
    c10_slider_gap_year_partial [2000, 2002] 0 2001
      (by decide) (by decide) (by decide)⟩
